import Mathlib

/-!
Shallow embedding of the FlowCon CPU controller.

Source files embedded here:
  * app/algorithm.py   (`algo_1`)            -> `FlowCon.algo1` and its pieces
  * app/dockerutils.py (`ContainerWrapper`, `ContainerList`) -> `FlowCon.Container`,
    `FlowCon.reconcile`, `FlowCon.all_completing`, `FlowCon.num_watching`, ...
  * app/listener.py    (`TrialListener.listen`) -> `FlowCon.listen`
  * app/trial.py       (`Trial.__init__` duplicate guard, `Trial.zip_logs` name)
    -> `FlowCon.trialGuardRefuses`, `FlowCon.zipArchiveName`

Measurement (`growth_tuple`) runs subprocesses and reads wall-clock time, so the
per-container growth results are taken as an input list `gs : List (Option ℚ)`
aligned with the container list, exactly as the `growth` accumulator list in
`algo_1` is after its first loop.  Machine floats are embedded as ℚ; the Python
literal 1e-10 is embedded as the decimal it denotes.  A Python exception that
propagates out of `algo_1` is an `Except.error`.
-/

namespace FlowCon

/-- One tracked container handle (`ContainerWrapper` in dockerutils.py).
`watching` and `completing` start as Python `None`, which is falsy in every
boolean test the code performs on them, so they are embedded as `Bool` starting
`false`; `cpu_lim` starts as `None`, hence `Option ℚ`. -/
structure Container where
  id : String
  cpu_lim : Option ℚ
  watching : Bool
  completing : Bool
  frozen : Bool
deriving Repr, DecidableEq

/-- A Python exception escaping the embedded code. -/
inductive PyError where
  | typeError : PyError
  | zeroDivisionError : PyError
deriving Repr, DecidableEq

/-- `ContainerList.all_completing` (dockerutils.py lines 296-304): return
`False` at the first container not marked completing, else `True`. -/
def all_completing (cs : List Container) : Bool :=
  cs.all (fun c => c.completing)

/-- `ContainerList.num_watching` (dockerutils.py lines 311-314). -/
def num_watching (cs : List Container) : Nat :=
  (cs.filter (fun c => c.watching)).length

/-- `ContainerList.num_completing` (dockerutils.py lines 306-309). -/
def num_completing (cs : List Container) : Nat :=
  (cs.filter (fun c => c.completing)).length

/-- Classification step of `algo_1` (algorithm.py lines 43-60) for one
container: growth `none` means the container is ignored and its flags are left
untouched; otherwise the three `if`/`elif` branches run. -/
def classify (alpha : ℚ) (g : Option ℚ) (c : Container) : Container :=
  match g with
  | none => c
  | some G =>
    if G < alpha ∧ c.watching = false ∧ c.completing = false then
      { c with watching := true, completing := false }
    else if G < alpha ∧ c.watching = true ∧ c.completing = false then
      { c with watching := false, completing := true }
    else if alpha ≤ G then
      { c with watching := false, completing := false }
    else c

/-- First loop of `algo_1` applied to the whole list, pairing each container
with its growth value positionally (the Python loop indexes both by `i`). -/
def classifyAll (alpha : ℚ) (gs : List (Option ℚ)) (cs : List Container) :
    List Container :=
  List.zipWith (fun g c => classify alpha g c) gs cs

/-- Which of the three top-level branches of `algo_1` runs (algorithm.py lines
62, 75, 106). -/
inductive Mode where
  | drain
  | redistribute
  | idle
deriving Repr, DecidableEq

/-- The `if`/`elif`/`else` chain of algorithm.py lines 62, 75, 106 applied to
the classified container list. -/
def selectMode (cs : List Container) (no_update : Bool) : Mode :=
  if all_completing cs && !no_update then Mode.drain
  else if num_watching cs + num_completing cs ≠ cs.length then Mode.redistribute
  else Mode.idle

/-- Drain branch, algorithm.py lines 62-73.  `1.5 * 1/len(containers)` raises
`ZeroDivisionError` when the list is empty; the handler logs a warning (the
returned `Bool`) and skips the update.  Otherwise every container is frozen and
pinned to `min(1.5/N, 1) * cpu_count()`. -/
def modeDrain (cores : Nat) (cs : List Container) : List Container × Bool :=
  if cs.length = 0 then (cs, true)
  else
    (cs.map (fun c =>
      { c with frozen := true,
               cpu_lim := some (min (3/2 * (1 / (cs.length : ℚ))) 1 * (cores : ℚ)) }),
     false)

/-- The Python float literal `1e-10` of algorithm.py line 84. -/
def eps : ℚ := 1 / 10000000000

/-- The lower clamp expression of algorithm.py line 94, exactly as written:
`1/10*len(containers)`, i.e. `(1/10) * N`.  Note this expression cannot raise
`ZeroDivisionError`, so the `except` arm around it is unreachable. -/
def modeBClampLow (N : Nat) : ℚ := 1/10 * N

/-- Tail of one Mode B iteration, algorithm.py lines 91-105: compute the
candidate limit, clamp below by `modeBClampLow`, clamp above by 1, override to
`1/N` if frozen.  Then line 102: when `no_update` is false, line 103 formats
`growth[i]` — but the local `growth` is a float by this point (both non-skipped
branches guarantee it), so indexing raises `TypeError` before line 105 can
write; when `no_update` is true the computed value is simply discarded.  Hence
no Mode B iteration ever writes `cpu_lim`. -/
def modeBFinish (N : Nat) (nu : Bool) (c : Container) (curNorm m : ℚ) :
    Except PyError Container :=
  let nl1 := curNorm * m
  let nl2 := max nl1 (modeBClampLow N)
  let nl3 := min nl2 1
  let _nl4 := if c.frozen = true then 1 / (N : ℚ) else nl3
  if nu = false then Except.error PyError.typeError
  else Except.ok c

/-- Mode B loop, algorithm.py lines 79-105, over container/growth pairs.
`gvar` models the local variable `growth`: `none` while it is still bound to
the accumulator list, `some x` once line 83 rebinds it to a float.  The
completing branch reads `growth[i]` (a `TypeError` once `growth` is a float),
the watching/ignored branch skips, and the active branch computes
`growth / growth_sum` where `growth` is the *list* unless a completing
container was processed earlier (`TypeError`), or a stale scalar otherwise. -/
def modeBGo (cores N : Nat) (gsum : ℚ) (nu : Bool) :
    List (Container × Option ℚ) → Option ℚ → Except PyError (List Container)
  | [], _ => Except.ok []
  | (c, gi) :: rest, gvar =>
    match c.cpu_lim with
    | none => Except.error PyError.typeError
    | some lim =>
      if c.completing = true then
        match gvar with
        | some _ => Except.error PyError.typeError
        | none =>
          let g : ℚ := gi.getD 0
          if gsum + eps = 0 then Except.error PyError.zeroDivisionError
          else
            match modeBFinish N nu c (lim / (cores : ℚ)) (1 - g / (gsum + eps)) with
            | Except.error e => Except.error e
            | Except.ok c2 =>
              match modeBGo cores N gsum nu rest (some g) with
              | Except.error e => Except.error e
              | Except.ok l => Except.ok (c2 :: l)
      else if c.watching = true ∨ gi = none then
        match modeBGo cores N gsum nu rest gvar with
        | Except.error e => Except.error e
        | Except.ok l => Except.ok (c :: l)
      else
        match gvar with
        | none => Except.error PyError.typeError
        | some gprev =>
          if gsum = 0 then Except.error PyError.zeroDivisionError
          else
            match modeBFinish N nu c (lim / (cores : ℚ)) (1 + gprev / gsum) with
            | Except.error e => Except.error e
            | Except.ok c2 =>
              match modeBGo cores N gsum nu rest gvar with
              | Except.error e => Except.error e
              | Except.ok l => Except.ok (c2 :: l)

/-- Mode B, algorithm.py lines 75-105. `growth_sum = sum(filter(None, growth))`
drops `None` (and falsy 0.0, which does not change a sum) before summing. -/
def modeB (cores : Nat) (nu : Bool) (gs : List (Option ℚ)) (cs : List Container) :
    Except PyError (List Container) :=
  modeBGo cores cs.length ((gs.filterMap id).sum) nu (cs.zip gs) none

/-- One Mode C iteration, algorithm.py lines 108-113: first the frozen re-pin
to `1/N * cpu_count()`, then (possibly overriding it) the watching re-pin to
`1.5/N * cpu_count()`; both only when updates are enabled. -/
def modeCStep (N cores : Nat) (nu : Bool) (c : Container) : Container :=
  let c1 := if c.frozen = true ∧ nu = false
            then { c with cpu_lim := some (1 / (N : ℚ) * (cores : ℚ)) } else c
  if c1.watching = true ∧ nu = false
  then { c1 with cpu_lim := some (3/2 / (N : ℚ) * (cores : ℚ)) } else c1

/-- Mode C, algorithm.py lines 106-113. -/
def modeC (cores : Nat) (nu : Bool) (cs : List Container) : List Container :=
  cs.map (modeCStep cs.length cores nu)

/-- Result of one `algo_1` run: the container list afterwards and whether the
`"Containers finished while algorithm running"` warning was logged. -/
structure AlgoOut where
  containers : List Container
  warned : Bool
deriving Repr, DecidableEq

/-- `algo_1` (algorithm.py lines 16-139) given the measured growth list.  The
status DataFrame it returns has one row per container; see `statusOf`. -/
def algo1 (alpha : ℚ) (cores : Nat) (no_update : Bool) (gs : List (Option ℚ))
    (cs0 : List Container) : Except PyError AlgoOut :=
  match selectMode (classifyAll alpha gs cs0) no_update with
  | Mode.drain =>
    Except.ok ⟨(modeDrain cores (classifyAll alpha gs cs0)).1,
               (modeDrain cores (classifyAll alpha gs cs0)).2⟩
  | Mode.redistribute =>
    match modeB cores no_update gs (classifyAll alpha gs cs0) with
    | Except.error e => Except.error e
    | Except.ok l => Except.ok ⟨l, false⟩
  | Mode.idle => Except.ok ⟨modeC cores no_update (classifyAll alpha gs cs0), false⟩

/-- One row of the status table built at algorithm.py lines 117-138 (the fields
the claims mention). -/
structure StatusRow where
  c_id : String
  limit : Option ℚ
  watching : Bool
  completing : Bool
deriving Repr, DecidableEq

/-- The status table has exactly one row per container in the list. -/
def statusOf (cs : List Container) : List StatusRow :=
  cs.map (fun c => ⟨c.id, c.cpu_lim, c.watching, c.completing⟩)

/-! ## ContainerList.reconcile (dockerutils.py lines 252-280) -/

/-- A freshly constructed `ContainerWrapper(id=c_id)`: limits `None`, flags
`None` (falsy), `frozen = False`. -/
def newContainer (c_id : String) : Container :=
  ⟨c_id, none, false, false, false⟩

/-- First reconcile loop (lines 265-269): append a new wrapper for every live
id not already tracked; `self.ids` is re-read after each append. -/
def addPhase (cs : List Container) (live : List String) : List Container :=
  live.foldl (fun acc c_id =>
    if (acc.map (fun c => c.id)).contains c_id then acc
    else acc ++ [newContainer c_id]) cs

/-- Limit initialisation (lines 276-280) for one iterated wrapper: a `None`
limit becomes `cpu_count()`, written through to docker, unless `no_update`.
Returns the wrapper and the ids written. -/
def cpuInit (nu : Bool) (cores : Nat) (c : Container) : Container × List String :=
  if c.cpu_lim = none ∧ nu = false then ({ c with cpu_lim := some (cores : ℚ) }, [c.id])
  else (c, [])

/-- Second reconcile loop (lines 271-280), with the exact CPython semantics of
removing from `self.containers` while iterating it: the iterator holds a
cursor into the list, so after `remove` the element that slid into the removed
slot is never visited.  Removing a dead wrapper also still runs the limit
initialisation check on it (the loop variable `c` outlives the removal), which
can write a limit for an already-dead container.  Returns (surviving list,
ids whose loss log was exported by `save_logs`, ids whose limit was written). -/
def removeLoop (nu : Bool) (cores : Nat) (live : List String) :
    List Container → List Container × List String × List String
  | [] => ([], [], [])
  | c :: rest =>
    if live.contains c.id then
      let (c2, w) := cpuInit nu cores c
      let (l, ex, ws) := removeLoop nu cores live rest
      (c2 :: l, ex, w ++ ws)
    else
      let dw := (cpuInit nu cores c).2
      match rest with
      | [] => ([], [c.id], dw)
      | b :: rest2 =>
        let (l, ex, ws) := removeLoop nu cores live rest2
        (b :: l, c.id :: ex, dw ++ ws)

/-- Result of one `ContainerList.reconcile` call. -/
structure ReconcileOut where
  containers : List Container
  exported : List String
  limitWrites : List String
deriving Repr, DecidableEq

/-- `ContainerList.reconcile` (dockerutils.py lines 252-280): add wrappers for
new live ids, then the remove/init loop. -/
def reconcile (nu : Bool) (cores : Nat) (live : List String)
    (cs : List Container) : ReconcileOut :=
  let cs1 := addPhase cs live
  let (cs2, ex, ws) := removeLoop nu cores live cs1
  ⟨cs2, ex, ws⟩

/-! ## TrialListener (listener.py) -/

/-- Listener state: `_is_running` and the `active_containers` snapshot taken in
`start()` (listener.py line 18).  `listen` never updates the snapshot. -/
structure ListenerState where
  is_running : Bool
  active_containers : List String
deriving Repr, DecidableEq

/-- The externally visible action one `listen` tick takes. -/
inductive ListenAction where
  | stopAndKill
  | stopBackoff
  | nothing
deriving Repr, DecidableEq

/-- `TrialListener.listen` (listener.py lines 25-35): with no live containers,
stop the listener and kill the Trial; otherwise call `stop_backoff` on the
Trial (once, then `break`) exactly when some live id is absent from the stored
`active_containers` snapshot. -/
def listen (st : ListenerState) (current : List String) :
    ListenerState × ListenAction :=
  if current.length = 0 then
    ({ st with is_running := false }, ListenAction.stopAndKill)
  else if current.any (fun c => !(st.active_containers.contains c)) then
    (st, ListenAction.stopBackoff)
  else (st, ListenAction.nothing)

/-! ## Trial duplicate-name guard (trial.py lines 51-53, 167-180) -/

/-- Name of the archive `Trial.zip_logs` produces (trial.py line 175). -/
def zipArchiveName (name : String) : String := name ++ "_logs.zip"

/-- The constructor guard `glob.glob('./experiment_{}*.zip'.format(name))`
(trial.py line 51): a file matches iff it begins with `experiment_` followed by
the name, ends with `.zip`, and is long enough that the two do not overlap
(that is exactly the semantics of a single `*`). -/
def trialGuardRefuses (files : List String) (name : String) : Bool :=
  files.any (fun f =>
    ("experiment_" ++ name).data.isPrefixOf f.data &&
    ".zip".data.isSuffixOf f.data &&
    decide (("experiment_" ++ name).length + 4 ≤ f.length))

/-- Python `round(x, 2)`, used by the spec sentence behind claim C5 (and by
algorithm.py line 105, which is unreachable).  Ties never arise at the inputs
considered here, so the tie-breaking mode is irrelevant. -/
def round2 (q : ℚ) : ℚ := ((round (q * 100) : ℤ) : ℚ) / 100

/-! ## Helper lemmas -/

theorem mem_zipWith_exists {α β γ : Type} (f : α → β → γ) :
    ∀ {l1 : List α} {l2 : List β} {x : γ}, x ∈ List.zipWith f l1 l2 →
      ∃ a b, a ∈ l1 ∧ b ∈ l2 ∧ x = f a b := by
  intro l1
  induction l1 with
  | nil => intro l2 x h; simp [List.zipWith] at h
  | cons a t ih =>
    intro l2 x h
    cases l2 with
    | nil => simp [List.zipWith] at h
    | cons b t2 =>
      rw [List.zipWith_cons_cons] at h
      rcases List.mem_cons.mp h with h | h
      · exact ⟨a, b, List.mem_cons_self _ _, List.mem_cons_self _ _, h⟩
      · obtain ⟨a2, b2, ha, hb, hx⟩ := ih h
        exact ⟨a2, b2, List.mem_cons_of_mem _ ha, List.mem_cons_of_mem _ hb, hx⟩

theorem classify_cpu_lim (alpha : ℚ) (g : Option ℚ) (c : Container) :
    (classify alpha g c).cpu_lim = c.cpu_lim := by
  cases g with
  | none => rfl
  | some G =>
    simp only [classify]
    split
    · rfl
    · split
      · rfl
      · split <;> rfl

theorem modeBFinish_ok {N : Nat} {nu : Bool} {c : Container} {cn m : ℚ}
    {c2 : Container} (h : modeBFinish N nu c cn m = Except.ok c2) : c2 = c := by
  simp only [modeBFinish] at h
  split at h
  · exact Except.noConfusion h
  · exact (Except.ok.inj h).symm

theorem modeBGo_ok_eq (cores N : Nat) (gsum : ℚ) (nu : Bool) :
    ∀ (l : List (Container × Option ℚ)) (gvar : Option ℚ) (out : List Container),
      modeBGo cores N gsum nu l gvar = Except.ok out → out = l.map Prod.fst := by
  intro l
  induction l with
  | nil =>
    intro gvar out h
    simp only [modeBGo] at h
    simp [← Except.ok.inj h]
  | cons p rest ih =>
    obtain ⟨c, gi⟩ := p
    intro gvar out h
    simp only [modeBGo] at h
    split at h
    · exact Except.noConfusion h
    · split at h
      · split at h
        · exact Except.noConfusion h
        · split at h
          · exact Except.noConfusion h
          · split at h
            · exact Except.noConfusion h
            · rename_i c2 hfin
              split at h
              · exact Except.noConfusion h
              · rename_i l2 hrec
                rw [← Except.ok.inj h, List.map_cons, modeBFinish_ok hfin, ih _ _ hrec]
      · split at h
        · split at h
          · exact Except.noConfusion h
          · rename_i l2 hrec
            rw [← Except.ok.inj h, List.map_cons, ih _ _ hrec]
        · split at h
          · exact Except.noConfusion h
          · split at h
            · exact Except.noConfusion h
            · split at h
              · exact Except.noConfusion h
              · rename_i c2 hfin
                split at h
                · exact Except.noConfusion h
                · rename_i l2 hrec
                  rw [← Except.ok.inj h, List.map_cons, modeBFinish_ok hfin, ih _ _ hrec]

theorem algo1_drain (alpha : ℚ) (cores : Nat) (nu : Bool) (gs : List (Option ℚ))
    (cs0 : List Container)
    (hmode : selectMode (classifyAll alpha gs cs0) nu = Mode.drain) :
    algo1 alpha cores nu gs cs0 =
      Except.ok ⟨(modeDrain cores (classifyAll alpha gs cs0)).1,
                 (modeDrain cores (classifyAll alpha gs cs0)).2⟩ := by
  unfold algo1
  rw [hmode]

theorem algo1_idle (alpha : ℚ) (cores : Nat) (nu : Bool) (gs : List (Option ℚ))
    (cs0 : List Container)
    (hmode : selectMode (classifyAll alpha gs cs0) nu = Mode.idle) :
    algo1 alpha cores nu gs cs0 =
      Except.ok ⟨modeC cores nu (classifyAll alpha gs cs0), false⟩ := by
  unfold algo1
  rw [hmode]

theorem algo1_redistribute_ok (alpha : ℚ) (cores : Nat) (nu : Bool)
    (gs : List (Option ℚ)) (cs0 : List Container) (out : AlgoOut)
    (hmode : selectMode (classifyAll alpha gs cs0) nu = Mode.redistribute)
    (hok : algo1 alpha cores nu gs cs0 = Except.ok out) :
    modeB cores nu gs (classifyAll alpha gs cs0) = Except.ok out.containers := by
  unfold algo1 at hok
  rw [hmode] at hok
  cases hB : modeB cores nu gs (classifyAll alpha gs cs0) with
  | error e =>
    rw [hB] at hok
    exact Except.noConfusion hok
  | ok l =>
    rw [hB] at hok
    rw [← Except.ok.inj hok]

theorem modeCStep_watching (N cores : Nat) (nu : Bool) (c : Container) :
    (modeCStep N cores nu c).watching = c.watching := by
  simp only [modeCStep]
  split <;> split <;> rfl

theorem modeCStep_frozen (N cores : Nat) (nu : Bool) (c : Container) :
    (modeCStep N cores nu c).frozen = c.frozen := by
  simp only [modeCStep]
  split <;> split <;> rfl

/-! ## Claims -/

/-- C1: the spec says that in Mode B every active container gets multiplier
`m = 1 + growth_i / G` and that, with two active containers of growths 0.2 and
0.8, 4 cores and limits 2.0 each, the new limits are about 2.4 and 3.6.  The
code cannot do this: at algorithm.py line 88 the local `growth` is still bound
to the accumulator *list* (line 83 only rebinds it when a completing container
was visited first), so the division `growth / growth_sum` is a list divided by
a float and the run raises `TypeError` before writing anything.  This theorem
evaluates the embedded `algo1` at exactly the S2 scenario of the spec. -/
theorem c1_modeB_active_raises :
    algo1 (1/20) 4 false [some (1/5), some (4/5)]
      [⟨"a", some 2, false, false, false⟩, ⟨"b", some 2, false, false, false⟩]
      = Except.error PyError.typeError := by
  norm_num [algo1, classifyAll, classify, selectMode, all_completing, num_watching,
    num_completing, modeB, modeBGo, modeBFinish, modeBClampLow, modeDrain, modeC,
    modeCStep, eps, List.zipWith, List.zip, List.all, List.filter, List.filterMap,
    Option.some_ne_none, reduceCtorEq]

/-- C2: the spec says the Mode B candidate limit is clamped below by
`1/(10·N)` and then written (rounded, times the core count) when `no_update`
is false.  The code diverges twice.  First, algorithm.py line 94 computes
`max(new_lim, 1/10*len(containers))`, i.e. the lower clamp is `N/10` and not
`1/(10·N)` (`modeBClampLow 2 = 2/10 ≠ 1/20`; the dead `except
ZeroDivisionError` arm around the line shows a division by `len` was
intended).  Second, no write ever happens: with `no_update` false the Mode B
logging line (algorithm.py 103) indexes the rebound float `growth[i]` and
raises `TypeError` before line 105, shown here on a run whose first
non-skipped container is completing. -/
theorem c2_modeB_clamp_and_write_diverge :
    modeBClampLow 2 = 2/10 ∧ (2/10 : ℚ) ≠ 1/(10*2) ∧
    algo1 (1/20) 4 false [some (1/100), none]
      [⟨"a", some 2, false, true, false⟩, ⟨"b", some 2, false, false, false⟩]
      = Except.error PyError.typeError := by
  refine ⟨by norm_num [modeBClampLow], by norm_num, ?_⟩
  norm_num [algo1, classifyAll, classify, selectMode, all_completing, num_watching,
    num_completing, modeB, modeBGo, modeBFinish, modeBClampLow, modeDrain, modeC,
    modeCStep, eps, List.zipWith, List.zip, List.all, List.filter, List.filterMap,
    Option.some_ne_none, reduceCtorEq]

/-- C3: the classification transitions of algorithm.py lines 49-60: below
threshold an untouched container becomes watching, a watching one becomes
completing (with watching cleared), at or above threshold both flags clear,
and two consecutive below-threshold growths from (false, false) end in
`completing = true`. -/
theorem c3_state_transitions (alpha G1 G2 : ℚ) (c : Container)
    (h1 : G1 < alpha) (h2 : G2 < alpha) :
    (c.watching = false → c.completing = false →
      classify alpha (some G1) c = { c with watching := true, completing := false }) ∧
    (c.watching = true → c.completing = false →
      classify alpha (some G1) c = { c with watching := false, completing := true }) ∧
    (∀ G, alpha ≤ G →
      classify alpha (some G) c = { c with watching := false, completing := false }) ∧
    (c.watching = false → c.completing = false →
      (classify alpha (some G2) (classify alpha (some G1) c)).completing = true) := by
  refine ⟨?_, ?_, ?_, ?_⟩
  · intro hw hc
    simp only [classify]
    rw [if_pos ⟨h1, hw, hc⟩]
  · intro hw hc
    simp only [classify]
    rw [if_neg (fun hcon => by rw [hw] at hcon; exact absurd hcon.2.1 (by simp)),
        if_pos ⟨h1, hw, hc⟩]
  · intro G hG
    simp only [classify]
    rw [if_neg (fun hcon => absurd hcon.1 (not_lt.mpr hG)),
        if_neg (fun hcon => absurd hcon.1 (not_lt.mpr hG)), if_pos hG]
  · intro hw hc
    have e1 : classify alpha (some G1) c = { c with watching := true, completing := false } := by
      simp only [classify]
      rw [if_pos ⟨h1, hw, hc⟩]
    rw [e1]
    simp [classify, h2]

/-- C3 witness: one concrete container observing growth 1/100 < 1/20 on two
consecutive ticks ends up completing. -/
theorem c3_state_transitions_witness :
    (classify (1/20) (some (1/100))
      (classify (1/20) (some (1/100)) ⟨"x", some 4, false, false, false⟩)).completing
      = true :=
  (c3_state_transitions (1/20) (1/100) (1/100) ⟨"x", some 4, false, false, false⟩
    (by norm_num) (by norm_num)).2.2.2 rfl rfl

/-- C6: reconcile is not idempotent.  With two tracked dead containers and an
unchanged (empty) live set, the first call removes only `a` — removing while
iterating `self.containers` makes the CPython iterator skip `b` — and the
second call then removes `b` and exports its loss log, so the second call both
changes membership and performs a side effect. -/
theorem c6_reconcile_not_idempotent :
    reconcile false 4 [] [⟨"a", some 4, false, false, false⟩, ⟨"b", some 4, false, false, false⟩]
      = ⟨[⟨"b", some 4, false, false, false⟩], ["a"], []⟩ ∧
    reconcile false 4 [] [⟨"b", some 4, false, false, false⟩]
      = ⟨[], ["b"], []⟩ := by
  constructor
  · decide
  · decide

/-- C7: on an empty container set with updates enabled the algorithm takes the
drain branch, the `1.5 * 1/len(containers)` expression raises
`ZeroDivisionError` which is caught and logged as a warning (`warned = true`),
no limit is written, the run completes normally, and the status table, having
one row per container, is empty. -/
theorem c7_empty_set_safe (alpha : ℚ) (cores : Nat) :
    algo1 alpha cores false [] [] = Except.ok ⟨[], true⟩ ∧
    statusOf [] = [] := by
  constructor
  · norm_num [algo1, classifyAll, selectMode, all_completing, num_watching,
      num_completing, modeDrain, List.zipWith, List.all, List.filter]
  · rfl

/-- C7 witness at concrete parameters. -/
theorem c7_empty_set_safe_witness :
    algo1 (1/20) 4 false [] [] = Except.ok ⟨[], true⟩ ∧
    statusOf [] = [] :=
  c7_empty_set_safe (1/20) 4

/-- C8: the duplicate-name guard of trial.py line 51 globs
`./experiment_<name>*.zip`, but the archive a finished trial leaves behind is
`<name>_logs.zip` (trial.py line 175), which that pattern can never match: a
second Trial named `foo` is not refused.  The guard does fire on a file that
literally starts with `experiment_foo`, confirming the embedded pattern. -/
theorem c8_duplicate_guard_misses_archive :
    zipArchiveName "foo" = "foo_logs.zip" ∧
    trialGuardRefuses [zipArchiveName "foo"] "foo" = false ∧
    trialGuardRefuses ["experiment_foo_logs.zip"] "foo" = true := by
  refine ⟨rfl, by decide, by decide⟩

/-- C9 counterexample: the claim says `stop_backoff` is called exactly when
some live id was absent on the listener's *previous tick*.  Snapshot at start:
`[A, B]`.  Tick 1 observes `[A]` (no call, state unchanged).  Tick 2 observes
`[A, B]`: `B` was absent on the previous tick, so the claim demands a call,
but the code compares against the start snapshot (never updated by `listen`)
and does nothing. -/
theorem c9_counterexample :
    (listen ((listen ⟨true, ["A", "B"]⟩ ["A"]).1) ["A", "B"]).2 = ListenAction.nothing ∧
    ("B" ∈ (["A", "B"] : List String) ∧ "B" ∉ (["A"] : List String)) := by
  constructor
  · decide
  · decide

/-- C9 amended: on a tick with live containers, `listen` calls `stop_backoff`
exactly when some currently-live id is absent from the `active_containers`
snapshot taken when the listener was started; with no live containers it stops
and kills the Trial; and `listen` never updates the snapshot. -/
theorem c9_amended_listen (st : ListenerState) (cur : List String) :
    ((listen st cur).2 = ListenAction.stopBackoff ↔
      (cur ≠ [] ∧ cur.any (fun c => !(st.active_containers.contains c)) = true)) ∧
    ((listen st cur).2 = ListenAction.stopAndKill ↔ cur = []) ∧
    (listen st cur).1.active_containers = st.active_containers := by
  rcases cur with _ | ⟨a, t⟩
  · simp [listen]
  · simp [listen]
    split <;> simp_all

/-- C9 amended witness: a live id outside the start snapshot triggers
`stop_backoff`. -/
theorem c9_amended_listen_witness :
    (listen ⟨true, ["A"]⟩ ["B"]).2 = ListenAction.stopBackoff :=
  (c9_amended_listen ⟨true, ["A"]⟩ ["B"]).1.mpr ⟨by simp, by decide⟩

/-- C4 counterexample: one container that is watching and ignored this tick
(growth `none`), 4 cores, prior limit 4.  Mode C runs and sets the watching
container to `1.5/N * cores = 6`, which violates the claimed invariant
`cpu_limit ≤ core_count = 4`. -/
theorem c4_counterexample :
    algo1 (1/20) 4 false [none] [⟨"c1", some 4, true, false, false⟩]
      = Except.ok ⟨[⟨"c1", some 6, true, false, false⟩], false⟩ ∧
    ¬ ((6:ℚ) ≤ ((4:Nat) : ℚ)) := by
  constructor
  · norm_num [algo1, classifyAll, classify, selectMode, all_completing, num_watching,
      num_completing, modeB, modeBGo, modeBFinish, modeBClampLow, modeDrain, modeC,
      modeCStep, eps, List.zipWith, List.zip, List.all, List.filter, List.filterMap,
      Option.some_ne_none, reduceCtorEq]
  · norm_num

/-- C4 amended: after any completed run with `no_update` false, given at least
one core and every prior limit within `(0, core_count]`, every container ends
with a defined limit in `(0, 1.5 * core_count]` (the watching re-pin of Mode C
reaches `1.5 * core_count` when `N = 1`, so `core_count` alone is not an upper
bound). -/
theorem c4_amended_bound (alpha : ℚ) (cores : Nat) (gs : List (Option ℚ))
    (cs0 : List Container) (out : AlgoOut)
    (hcores : 1 ≤ cores)
    (hg : gs.length = cs0.length)
    (hpre : ∀ c ∈ cs0, ∃ l, c.cpu_lim = some l ∧ 0 < l ∧ l ≤ (cores : ℚ))
    (hok : algo1 alpha cores false gs cs0 = Except.ok out) :
    ∀ c2 ∈ out.containers, ∃ l, c2.cpu_lim = some l ∧ 0 < l ∧ l ≤ 3/2 * (cores : ℚ) := by
  have hcQ : (1:ℚ) ≤ (cores : ℚ) := by exact_mod_cast hcores
  have hc0 : (0:ℚ) < (cores : ℚ) := lt_of_lt_of_le one_pos hcQ
  have hlen : (classifyAll alpha gs cs0).length = cs0.length := by
    simp [classifyAll, List.length_zipWith, hg]
  have hmemcs : ∀ x ∈ classifyAll alpha gs cs0,
      ∃ l, x.cpu_lim = some l ∧ 0 < l ∧ l ≤ (cores : ℚ) := by
    intro x hx
    obtain ⟨g, c, _, hcmem, hxeq⟩ := mem_zipWith_exists _ hx
    obtain ⟨l, hl, h0, hle⟩ := hpre c hcmem
    refine ⟨l, ?_, h0, hle⟩
    rw [hxeq, classify_cpu_lim]
    exact hl
  intro c2 hmem
  cases hmode : selectMode (classifyAll alpha gs cs0) false with
  | drain =>
    have hA := algo1_drain alpha cores false gs cs0 hmode
    rw [hok] at hA
    have hout : out.containers = (modeDrain cores (classifyAll alpha gs cs0)).1 := by
      rw [Except.ok.inj hA]
    rw [hout] at hmem
    by_cases hn : (classifyAll alpha gs cs0).length = 0
    · rw [List.length_eq_zero.mp hn] at hmem
      simp [modeDrain] at hmem
    · have hNpos : 0 < (classifyAll alpha gs cs0).length := Nat.pos_of_ne_zero hn
      have hNQ : (0:ℚ) < ((classifyAll alpha gs cs0).length : ℚ) := by exact_mod_cast hNpos
      simp only [modeDrain, if_neg hn] at hmem
      obtain ⟨x, _, hxeq⟩ := List.mem_map.mp hmem
      refine ⟨min (3/2 * (1 / ((classifyAll alpha gs cs0).length : ℚ))) 1 * (cores : ℚ),
        ?_, ?_, ?_⟩
      · rw [← hxeq]
      · have ha : (0:ℚ) < 3/2 * (1 / ((classifyAll alpha gs cs0).length : ℚ)) := by positivity
        exact mul_pos (lt_min ha one_pos) hc0
      · have h1 : min (3/2 * (1 / ((classifyAll alpha gs cs0).length : ℚ))) 1 ≤ 1 :=
          min_le_right _ _
        have h2 := mul_le_mul_of_nonneg_right h1 (le_of_lt hc0)
        rw [one_mul] at h2
        linarith
  | redistribute =>
    have hB := algo1_redistribute_ok alpha cores false gs cs0 out hmode hok
    unfold modeB at hB
    have hfst := modeBGo_ok_eq cores (classifyAll alpha gs cs0).length
      ((gs.filterMap id).sum) false ((classifyAll alpha gs cs0).zip gs) none
      out.containers hB
    have hle : (classifyAll alpha gs cs0).length ≤ gs.length := by
      rw [hlen, hg]
    rw [List.map_fst_zip _ _ hle] at hfst
    rw [hfst] at hmem
    obtain ⟨l, hl, h0, hle2⟩ := hmemcs c2 hmem
    exact ⟨l, hl, h0, by linarith⟩
  | idle =>
    have hA := algo1_idle alpha cores false gs cs0 hmode
    rw [hok] at hA
    have hout : out.containers = modeC cores false (classifyAll alpha gs cs0) := by
      rw [Except.ok.inj hA]
    rw [hout] at hmem
    obtain ⟨x, hx, hxeq⟩ := List.mem_map.mp hmem
    have hNpos : 0 < (classifyAll alpha gs cs0).length :=
      List.length_pos.mpr (List.ne_nil_of_mem hx)
    have hNQ : (0:ℚ) < ((classifyAll alpha gs cs0).length : ℚ) := by exact_mod_cast hNpos
    have hN1 : (1:ℚ) ≤ ((classifyAll alpha gs cs0).length : ℚ) := by
      exact_mod_cast hNpos
    by_cases hw : x.watching = true
    · have hcl : c2.cpu_lim
          = some (3/2 / ((classifyAll alpha gs cs0).length : ℚ) * (cores : ℚ)) := by
        rw [← hxeq]
        simp [modeCStep, hw, apply_ite Container.watching]
      refine ⟨3/2 / ((classifyAll alpha gs cs0).length : ℚ) * (cores : ℚ), hcl, ?_, ?_⟩
      · exact mul_pos (div_pos (by norm_num) hNQ) hc0
      · have hd : 3/2 / ((classifyAll alpha gs cs0).length : ℚ) ≤ 3/2 :=
          div_le_self (by norm_num) hN1
        exact mul_le_mul_of_nonneg_right hd (le_of_lt hc0)
    · rw [Bool.not_eq_true] at hw
      by_cases hf : x.frozen = true
      · have hcl : c2.cpu_lim
            = some (1 / ((classifyAll alpha gs cs0).length : ℚ) * (cores : ℚ)) := by
          rw [← hxeq]
          simp [modeCStep, hw, hf]
        refine ⟨1 / ((classifyAll alpha gs cs0).length : ℚ) * (cores : ℚ), hcl,
          mul_pos (div_pos one_pos hNQ) hc0, ?_⟩
        have hd : 1 / ((classifyAll alpha gs cs0).length : ℚ) ≤ 1 := by
          rw [div_le_one hNQ]
          exact hN1
        have h2 := mul_le_mul_of_nonneg_right hd (le_of_lt hc0)
        rw [one_mul] at h2
        linarith
      · rw [Bool.not_eq_true] at hf
        have hceq : c2 = x := by
          rw [← hxeq]
          simp [modeCStep, hw, hf]
        rw [hceq]
        obtain ⟨l, hl, h0, hle2⟩ := hmemcs x hx
        exact ⟨l, hl, h0, by linarith⟩

/-- C4 amended witness: a single completing container with prior limit 2 on 4
cores goes through the drain branch and ends at limit 4 ∈ (0, 6]. -/
theorem c4_amended_bound_witness :
    ∃ l, (⟨"c1", some 4, false, true, true⟩ : Container).cpu_lim = some l ∧
      0 < l ∧ l ≤ 3/2 * ((4:Nat) : ℚ) :=
  c4_amended_bound (1/20) 4 [some (1/100)] [⟨"c1", some 2, false, true, false⟩]
    ⟨[⟨"c1", some 4, false, true, true⟩], false⟩
    (by norm_num)
    (by simp)
    (by
      intro c hc
      rw [List.mem_singleton] at hc
      subst hc
      exact ⟨2, rfl, by norm_num, by norm_num⟩)
    (by norm_num [algo1, classifyAll, classify, selectMode, all_completing, num_watching,
      num_completing, modeB, modeBGo, modeBFinish, modeBClampLow, modeDrain, modeC,
      modeCStep, eps, List.zipWith, List.zip, List.all, List.filter, List.filterMap,
      Option.some_ne_none, reduceCtorEq])
    ⟨"c1", some 4, false, true, true⟩
    (by simp)

/-- C5 counterexample: Mode C with three containers on 4 cores (one frozen and
completing, two watching).  The frozen container is re-pinned to
`1/3 * 4 = 4/3` exactly, whereas the claim demands `round(4/3, 2) = 1.33`;
moreover the drain branch would overwrite frozen containers with
`min(1.5/N, 1) * cores` instead, so the claimed equation does not hold after
every tick. -/
theorem c5_counterexample :
    algo1 (1/20) 4 false [none, none, none]
      [⟨"a", some 4, false, true, true⟩, ⟨"b", some 4, true, false, false⟩,
       ⟨"c", some 4, true, false, false⟩]
      = Except.ok ⟨[⟨"a", some (4/3), false, true, true⟩,
                    ⟨"b", some 2, true, false, false⟩,
                    ⟨"c", some 2, true, false, false⟩], false⟩ ∧
    (4/3 : ℚ) ≠ round2 ((4:ℚ)/3) := by
  constructor
  · norm_num [algo1, classifyAll, classify, selectMode, all_completing, num_watching,
      num_completing, modeB, modeBGo, modeBFinish, modeBClampLow, modeDrain, modeC,
      modeCStep, eps, List.zipWith, List.zip, List.all, List.filter, List.filterMap,
      Option.some_ne_none, reduceCtorEq]
  · have hr : round ((400:ℚ)/3) = 133 := by
      rw [round_eq]
      norm_num
    norm_num [round2, hr]

/-- C5 amended: after a tick in which the idle branch (Mode C) runs with
`no_update` false, every frozen non-watching container is pinned to exactly
`core_count / N` (no rounding); the drain branch instead assigns
`min(1.5/N, 1) * core_count` to every container, and Mode B never writes. -/
theorem c5_amended_modeC_frozen (alpha : ℚ) (cores : Nat) (gs : List (Option ℚ))
    (cs0 : List Container) (out : AlgoOut)
    (hok : algo1 alpha cores false gs cs0 = Except.ok out)
    (hmode : selectMode (classifyAll alpha gs cs0) false = Mode.idle) :
    ∀ c2 ∈ out.containers, c2.frozen = true → c2.watching = false →
      c2.cpu_lim = some (1 / ((classifyAll alpha gs cs0).length : ℚ) * (cores : ℚ)) := by
  intro c2 hmem hfz hw
  have hA := algo1_idle alpha cores false gs cs0 hmode
  rw [hok] at hA
  have hout : out.containers = modeC cores false (classifyAll alpha gs cs0) := by
    rw [Except.ok.inj hA]
  rw [hout] at hmem
  obtain ⟨x, _, hxeq⟩ := List.mem_map.mp hmem
  have hxw : x.watching = false := by
    rw [← modeCStep_watching (classifyAll alpha gs cs0).length cores false x, hxeq]
    exact hw
  have hxf : x.frozen = true := by
    rw [← modeCStep_frozen (classifyAll alpha gs cs0).length cores false x, hxeq]
    exact hfz
  rw [← hxeq]
  simp [modeCStep, hxw, hxf]

/-- C5 amended witness: in the concrete Mode C scenario of the counterexample,
the frozen non-watching container ends at exactly `4/3 = cores/N`. -/
theorem c5_amended_modeC_frozen_witness :
    (⟨"a", some ((4:ℚ)/3), false, true, true⟩ : Container).cpu_lim
      = some (1 / ((3:Nat) : ℚ) * ((4:Nat) : ℚ)) :=
  c5_amended_modeC_frozen (1/20) 4 [none, none, none]
    [⟨"a", some 4, false, true, true⟩, ⟨"b", some 4, true, false, false⟩,
     ⟨"c", some 4, true, false, false⟩]
    ⟨[⟨"a", some (4/3), false, true, true⟩, ⟨"b", some 2, true, false, false⟩,
      ⟨"c", some 2, true, false, false⟩], false⟩
    (by norm_num [algo1, classifyAll, classify, selectMode, all_completing, num_watching,
      num_completing, modeB, modeBGo, modeBFinish, modeBClampLow, modeDrain, modeC,
      modeCStep, eps, List.zipWith, List.zip, List.all, List.filter, List.filterMap,
      Option.some_ne_none, reduceCtorEq])
    (by norm_num [selectMode, classifyAll, classify, all_completing, num_watching,
      num_completing, List.zipWith, List.all, List.filter])
    ⟨"a", some ((4:ℚ)/3), false, true, true⟩
    (by simp)
    rfl
    rfl

/-- C10: `all_completing` on an empty list is vacuously true, and therefore the
empty set with `no_update` false selects the drain branch (Mode A). -/
theorem c10_empty_all_completing_drain :
    all_completing [] = true ∧ selectMode [] false = Mode.drain := by
  constructor
  · rfl
  · norm_num [selectMode, all_completing, num_watching, num_completing]

end FlowCon
